import Mathlib

/-!
Verification of the VehicleHUD application (`app/src/main.py`).

The file shallowly embeds the state and the three state-mutating routines of
`CustomVehicleApp`:

* `on_message` (MQTT callback, lines 129-161) as `on_message_result`, a pure
  state transition returning the successor state together with a flag telling
  whether the `try` body raised (the `except` block only logs, so a raise
  leaves the state as it was at the point of the raise);
* `monitor_kuksa`'s loop body (lines 163-180) as `kuksa_step`;
* one iteration of the render loop `run` (lines 182-204) together with
  `display_message` (lines 206-224) as `render_tick`, returning the successor
  state, what was drawn, and a raise flag.

JSON payloads are modelled by `JVal` (the image of `json.loads`); a payload
that fails UTF-8 decoding or JSON parsing is `none`.  Python floats are
modelled by `ℚ`.  The external distance library call
(`geopy.distance.distance(...).km`) is not code of this repository; the
embedding abstracts it as a function parameter `dist`, and the spec's GeoMath
contract (haversine on a spherical Earth) is modelled separately over `ℝ` as
`haversineKm`.  Fields of the Python object that no claim or transition ever
reads (`current_speed`, `time_cnt`, the pygame surfaces) are omitted.
-/

namespace VehicleHUD

/-- A decoded JSON value, the image of Python's `json.loads`: `null`, booleans,
numbers (Python ints and floats, modelled as `ℚ`), strings, arrays, and
objects (insertion-ordered key/value lists, as Python dicts present them). -/
inductive JVal where
  | null : JVal
  | bool (b : Bool) : JVal
  | num (q : ℚ) : JVal
  | str (s : String) : JVal
  | arr (xs : List JVal) : JVal
  | obj (fields : List (String × JVal)) : JVal

/-- MQTT topic constant `TOPIC_ALERT = "alert/car"` (line 38). -/
def TOPIC_ALERT : String := "alert/car"

/-- MQTT topic constant `TOPIC_WEATHER = "alert/weather"` (line 39). -/
def TOPIC_WEATHER : String := "alert/weather"

/-- Python `dict.get(k)` on a decoded JSON object: the value of the first
binding of `k`, if any. -/
def jget (m : List (String × JVal)) (k : String) : Option JVal :=
  (m.find? (fun p => p.1 = k)).map Prod.snd

/-- Python `dict.get(k, d)`: `jget` with a default. -/
def jgetD (m : List (String × JVal)) (k : String) (d : JVal) : JVal :=
  (jget m k).getD d

/-- Python `v >= 500` on a decoded JSON value: defined (`some`) on numbers and
booleans (Python booleans are integers), a `TypeError` (`none`) otherwise. -/
def jge500 : JVal → Option Bool
  | JVal.num q => some (500 ≤ q)
  | JVal.bool _ => some false
  | _ => none

/-- Python `v["latitude"], v["longitude"]` followed by the geopy distance
call: succeeds exactly when `v` is a dict carrying numeric `latitude` and
`longitude` entries; any other shape raises (`TypeError`/`KeyError` on the
subscript, or `ValueError` inside geopy on non-numeric coordinates). -/
def jCoord : JVal → Option (ℚ × ℚ)
  | JVal.obj m =>
    match jget m "latitude", jget m "longitude" with
    | some (JVal.num la), some (JVal.num lo) => some (la, lo)
    | _, _ => none
  | _ => none

/-- The vehicle position dict `{"latitude": ..., "longitude": ...}`. -/
structure Coord where
  latitude : ℚ
  longitude : ℚ
deriving DecidableEq

/-- The mutable state of `CustomVehicleApp` (lines 106-114): the display
message and its timestamp, the last weather readings, the slide counter, the
own position `this_location`, and the last received `collision_location`
(initially a dict, but overwritten with whatever `data.get` returns). -/
structure AppState where
  message_to_display : Option String
  slide_value : JVal
  humidity : JVal
  slide_cnt : Nat
  message_display_time : Option ℚ
  this_location : Coord
  collision_location : JVal

/-- The state of `CustomVehicleApp` right after `__init__` (lines 106-114). -/
def initState : AppState where
  message_to_display := none
  slide_value := JVal.num 0
  humidity := JVal.num 0
  slide_cnt := 0
  message_display_time := none
  this_location := ⟨50, 9⟩
  collision_location := JVal.obj [("latitude", JVal.num 100), ("longitude", JVal.num 9)]

/-- Python `round(x, 1)` (the exact tie-breaking of Python's float rounding is
immaterial to every claim; the rounded value is only ever embedded in the
display text). -/
def pyRound1 (q : ℚ) : ℚ :=
  (round (10 * q) : ℤ) / 10

/-- The `on_message` MQTT callback (lines 129-161), as a state transition.
`dist` abstracts the external `geopy.distance.distance(a, b).km` call
(arguments: collision latitude, collision longitude, own latitude, own
longitude), `payload` is the decoded JSON (`none` when UTF-8 decoding or
`json.loads` fails), `now` is `time.time()`.  The second component records
whether the `try` body raised; the `except Exception` block only logs, so the
returned state is the state at the point of the raise. -/
def on_message_result (dist : ℚ → ℚ → ℚ → ℚ → ℚ) (s : AppState)
    (topic : String) (payload : Option JVal) (now : ℚ) : AppState × Bool :=
  match payload with
  | none => (s, true)
  | some data =>
    if topic = TOPIC_WEATHER then
      match data with
      | JVal.obj m =>
        let s1 : AppState :=
          { s with
            slide_value := jgetD m "slide_value" (JVal.num 0)
            humidity := jgetD m "humidity" (JVal.num 0) }
        match jge500 s1.slide_value with
        | none => (s1, true)
        | some b =>
          let s2 : AppState :=
            if b then { s1 with slide_cnt := s1.slide_cnt + 1 } else s1
          let s3 : AppState :=
            { s2 with
              message_to_display := some ("Slide Count: " ++ toString s2.slide_cnt) }
          ({ s3 with message_display_time := some now }, false)
      | _ => (s, true)
    else if topic = TOPIC_ALERT then
      match data with
      | JVal.obj m =>
        let s1 : AppState :=
          { s with collision_location := jgetD m "collision_location" JVal.null }
        match jCoord s1.collision_location with
        | none => (s1, true)
        | some (clat, clon) =>
          let d := dist clat clon s1.this_location.latitude s1.this_location.longitude
          let s2 : AppState :=
            { s1 with
              message_to_display :=
                some ("Collision Distance: " ++ toString (pyRound1 d) ++ " KM") }
          ({ s2 with message_display_time := some now }, false)
      | _ => (s, true)
    else
      ({ s with message_display_time := some now }, false)

/-- The state after `on_message`, discarding the raise flag (the callback
itself never propagates an exception). -/
def on_message (dist : ℚ → ℚ → ℚ → ℚ → ℚ) (s : AppState)
    (topic : String) (payload : Option JVal) (now : ℚ) : AppState :=
  (on_message_result dist s topic payload now).1

/-- One loop-body iteration of `monitor_kuksa` (lines 163-180): the update
dict maps each subscribed signal path to an optional datapoint value.  An
outer `none` models the path missing from the update (`update.get(path)` is
then Python `None` and `.value` raises `AttributeError`, terminating the
subscription loop via the surrounding `except`); an inner `none` models a
datapoint whose `value` is `None`.  The position is rewritten (both axes, in
one branch) exactly when both values are truthy — non-`None` and nonzero.
Second component: the raise flag. -/
def kuksa_step (s : AppState) (lat lon : Option (Option ℚ)) : AppState × Bool :=
  match lat, lon with
  | some latv, some lonv =>
    match latv, lonv with
    | some la, some lo =>
      if la ≠ 0 ∧ lo ≠ 0 then
        ({ s with this_location := ⟨la, lo⟩ }, false)
      else
        (s, false)
    | _, _ => (s, false)
  | _, _ => (s, true)

/-- What one render tick draws: the default background, or the HUD overlay of
`display_message` (`weather = true` for the weather branch, `false` for the
collision branch) with the text it renders. -/
inductive Shown where
  | background : Shown
  | overlay (weather : Bool) (text : String) : Shown
deriving DecidableEq

/-- Python `needle in hay` substring test. -/
def strContains (needle hay : String) : Bool :=
  go needle.data hay.data
where
  /-- Check the needle against every suffix of the haystack. -/
  go (n : List Char) : List Char → Bool
    | [] => n.isEmpty
    | c :: rest => n.isPrefixOf (c :: rest) || go n rest

/-- The `display_message` method (lines 206-224): texts containing
`"Slide Count"` take the weather branch; all others take the collision
branch, which reads `self.collision_location["latitude"]` and compares it
with 52 to decide an icon — raising (`none`) when `collision_location` is not
a dict with a numeric `latitude`. -/
def display_message (s : AppState) (text : String) : Option Shown :=
  if strContains "Slide Count" text then
    some (Shown.overlay true text)
  else
    match s.collision_location with
    | JVal.obj m =>
      match jget m "latitude" with
      | some (JVal.num _) => some (Shown.overlay false text)
      | _ => none
    | _ => none

/-- Python truthiness of `self.message_to_display`: a non-`None`, non-empty
string. -/
def msgTruthy : Option String → Bool
  | some t => !t.isEmpty
  | none => false

/-- One iteration of the `run` loop (lines 193-204, the display part; the
pygame event poll and the sleeps are external).  If `message_to_display` is
truthy the message is displayed first, and only then the expiry check
`time.time() - self.message_display_time > 5` clears it; otherwise the
default background is drawn.  Components: successor state, what was drawn
(`none` when `display_message` raised before presenting), raise flag (a raise
propagates out of `run` and ends the loop; it occurs when `display_message`
raises or when `message_display_time` is Python `None`). -/
def render_tick (s : AppState) (now : ℚ) : AppState × Option Shown × Bool :=
  if msgTruthy s.message_to_display then
    match s.message_to_display with
    | some t =>
      match display_message s t with
      | none => (s, none, true)
      | some sh =>
        match s.message_display_time with
        | none => (s, some sh, true)
        | some tdisp =>
          if now - tdisp > 5 then
            ({ s with message_to_display := none }, some sh, false)
          else
            (s, some sh, false)
    | none => (s, some Shown.background, false)
  else
    (s, some Shown.background, false)

/-- Modelled from the spec: the GeoMath contract `distanceKm` — the
great-circle (haversine) distance in kilometres on a spherical Earth.  The
program's actual distance call goes to the external geopy library, whose code
is not part of this repository; the spec fixes this contract for it. -/
noncomputable def haversineKm (lat1 lon1 lat2 lon2 : ℝ) : ℝ :=
  let rad : ℝ → ℝ := fun d => d * Real.pi / 180
  let dlat := rad lat2 - rad lat1
  let dlon := rad lon2 - rad lon1
  let a :=
    Real.sin (dlat / 2) ^ 2 +
      Real.cos (rad lat1) * Real.cos (rad lat2) * Real.sin (dlon / 2) ^ 2
  2 * 6371 * Real.arcsin (Real.sqrt a)

/-- A concrete stand-in for the external distance function, used to evaluate
the model at concrete inputs. -/
def dist0 : ℚ → ℚ → ℚ → ℚ → ℚ := fun _ _ _ _ => 0

/-- A well-formed collision payload:
`{"collision_location": {"latitude": 51, "longitude": 10}}`. -/
def collisionPayload : JVal :=
  JVal.obj [("collision_location",
    JVal.obj [("latitude", JVal.num 51), ("longitude", JVal.num 10)])]

/-- The state reached from `initState` by one valid collision message at
time 0. -/
def sCol : AppState :=
  on_message dist0 initState TOPIC_ALERT (some collisionPayload) 0

/-- A state displaying a weather message set at time 0. -/
def sExp : AppState :=
  { initState with
    message_to_display := some "Slide Count: 0"
    message_display_time := some 0 }

/-- Characterization of a weather message whose extracted `slide_value`
compares with 500 without a `TypeError`: the new readings are stored, the
counter is bumped exactly on `slide_value >= 500`, and the display is set. -/
theorem on_message_weather_eq (dist : ℚ → ℚ → ℚ → ℚ → ℚ) (s : AppState)
    (m : List (String × JVal)) (now : ℚ) (b : Bool)
    (h : jge500 (jgetD m "slide_value" (JVal.num 0)) = some b) :
    on_message_result dist s TOPIC_WEATHER (some (JVal.obj m)) now =
      ({ s with
          slide_value := jgetD m "slide_value" (JVal.num 0)
          humidity := jgetD m "humidity" (JVal.num 0)
          slide_cnt := if b then s.slide_cnt + 1 else s.slide_cnt
          message_to_display :=
            some ("Slide Count: "
              ++ toString (if b then s.slide_cnt + 1 else s.slide_cnt))
          message_display_time := some now }, false) := by
  unfold on_message_result
  dsimp only
  rw [if_pos rfl]
  simp only [h]
  cases b <;> rfl

/-- Characterization of a collision message carrying a valid coordinate pair:
the pair is stored, the distance text is set, and the timestamp updated. -/
theorem on_message_collision_eq (dist : ℚ → ℚ → ℚ → ℚ → ℚ) (s : AppState)
    (m : List (String × JVal)) (now clat clon : ℚ)
    (h : jCoord (jgetD m "collision_location" JVal.null) = some (clat, clon)) :
    on_message_result dist s TOPIC_ALERT (some (JVal.obj m)) now =
      ({ s with
          collision_location := jgetD m "collision_location" JVal.null
          message_to_display :=
            some ("Collision Distance: "
              ++ toString (pyRound1
                  (dist clat clon s.this_location.latitude s.this_location.longitude))
              ++ " KM")
          message_display_time := some now }, false) := by
  unfold on_message_result
  dsimp only
  rw [if_neg (by decide : ¬ (TOPIC_ALERT = TOPIC_WEATHER)), if_pos rfl]
  simp only [h]

/-- A render tick touches no field of the state other than
`message_to_display`. -/
theorem render_tick_fields (s : AppState) (now : ℚ) :
    (render_tick s now).1.slide_cnt = s.slide_cnt
      ∧ (render_tick s now).1.slide_value = s.slide_value
      ∧ (render_tick s now).1.humidity = s.humidity
      ∧ (render_tick s now).1.collision_location = s.collision_location
      ∧ (render_tick s now).1.this_location = s.this_location
      ∧ (render_tick s now).1.message_display_time = s.message_display_time := by
  unfold render_tick
  repeat' split
  all_goals simp

/-- A KUKSA step touches no field of the state other than `this_location`. -/
theorem kuksa_step_fields (s : AppState) (lat lon : Option (Option ℚ)) :
    (kuksa_step s lat lon).1.slide_cnt = s.slide_cnt
      ∧ (kuksa_step s lat lon).1.message_to_display = s.message_to_display
      ∧ (kuksa_step s lat lon).1.message_display_time = s.message_display_time := by
  unfold kuksa_step
  repeat' split
  all_goals simp

/-- The slide counter after `on_message` either is unchanged, or the message
was a weather message whose extracted `slide_value` passed the threshold and
the counter grew by exactly one. -/
theorem on_message_slide_cnt (dist : ℚ → ℚ → ℚ → ℚ → ℚ) (s : AppState)
    (topic : String) (payload : Option JVal) (now : ℚ) :
    (on_message_result dist s topic payload now).1.slide_cnt = s.slide_cnt
      ∨ (topic = TOPIC_WEATHER
          ∧ (on_message_result dist s topic payload now).1.slide_cnt = s.slide_cnt + 1
          ∧ ∃ m, payload = some (JVal.obj m)
              ∧ jge500 (jgetD m "slide_value" (JVal.num 0)) = some true) := by
  unfold on_message_result
  rcases payload with _ | data
  · exact Or.inl rfl
  · rcases data with _ | b | q | st | xs | m <;> dsimp only
    case obj =>
      by_cases hw : topic = TOPIC_WEATHER
      · rw [if_pos hw]
        rcases hj : jge500 (jgetD m "slide_value" (JVal.num 0)) with _ | b2
        · exact Or.inl rfl
        · cases b2
          · exact Or.inl (by simp)
          · exact Or.inr ⟨hw, by simp, m, rfl, hj⟩
      · rw [if_neg hw]
        by_cases ha : topic = TOPIC_ALERT
        · rw [if_pos ha]
          rcases hc : jCoord (jgetD m "collision_location" JVal.null) with _ | ⟨clat, clon⟩
          · exact Or.inl rfl
          · exact Or.inl rfl
        · rw [if_neg ha]
          exact Or.inl rfl
    all_goals
      by_cases hw : topic = TOPIC_WEATHER
    all_goals
      first
        | (rw [if_pos hw]; exact Or.inl rfl)
        | (rw [if_neg hw]
           by_cases ha : topic = TOPIC_ALERT
           · rw [if_pos ha]; exact Or.inl rfl
           · rw [if_neg ha]; exact Or.inl rfl)

/-- Claim C1, as frozen, is false at a concrete input: processing a collision
message whose payload is the empty JSON object (no `collision_location`)
overwrites the stored collision location with `null` — the state is not
entirely unchanged. -/
theorem C1_counterexample :
    (on_message dist0 initState TOPIC_ALERT (some (JVal.obj [])) 7).collision_location
        = JVal.null
      ∧ initState.collision_location ≠ JVal.null := by
  refine ⟨rfl, fun h => ?_⟩
  exact JVal.noConfusion h

/-- Claim C1 (amended): processing a collision message whose payload is a
JSON object lacking a valid `collision_location` leaves the display message,
the display timestamp, the slide counter and the current `Position`
unchanged, but overwrites the stored collision location with the extracted
invalid value (`null` when the field is absent) before the failure is
caught. -/
theorem C1_invalid_collision (dist : ℚ → ℚ → ℚ → ℚ → ℚ) (s : AppState)
    (m : List (String × JVal)) (now : ℚ)
    (h : jCoord (jgetD m "collision_location" JVal.null) = none) :
    (on_message_result dist s TOPIC_ALERT (some (JVal.obj m)) now).1.message_to_display
        = s.message_to_display
      ∧ (on_message_result dist s TOPIC_ALERT (some (JVal.obj m)) now).1.message_display_time
        = s.message_display_time
      ∧ (on_message_result dist s TOPIC_ALERT (some (JVal.obj m)) now).1.this_location
        = s.this_location
      ∧ (on_message_result dist s TOPIC_ALERT (some (JVal.obj m)) now).1.slide_cnt
        = s.slide_cnt
      ∧ (on_message_result dist s TOPIC_ALERT (some (JVal.obj m)) now).1.collision_location
        = jgetD m "collision_location" JVal.null
      ∧ (on_message_result dist s TOPIC_ALERT (some (JVal.obj m)) now).2 = true := by
  simp [on_message_result, h, TOPIC_ALERT, TOPIC_WEATHER]

/-- Witness for C1 at a concrete input: the empty-object payload. -/
theorem C1_invalid_collision_witness :
    jCoord (jgetD [] "collision_location" JVal.null) = none
      ∧ (on_message_result dist0 initState TOPIC_ALERT (some (JVal.obj [])) 7).1.message_to_display
        = initState.message_to_display
      ∧ (on_message_result dist0 initState TOPIC_ALERT (some (JVal.obj [])) 7).1.this_location
        = initState.this_location :=
  ⟨rfl, (C1_invalid_collision dist0 initState [] 7 rfl).1,
    (C1_invalid_collision dist0 initState [] 7 rfl).2.2.1⟩

/-- Claim C9: `on_message` is total (its model is a function — the
`except Exception` block swallows every raise), and whenever the `try` body
raises, `message_to_display` and `message_display_time` keep their prior
values; `message_display_time` is set (to `now`) exactly when the body runs
to completion. -/
theorem C9_exception_safety (dist : ℚ → ℚ → ℚ → ℚ → ℚ) (s : AppState)
    (topic : String) (payload : Option JVal) (now : ℚ) :
    ((on_message_result dist s topic payload now).2 = true →
        (on_message_result dist s topic payload now).1.message_to_display
            = s.message_to_display
          ∧ (on_message_result dist s topic payload now).1.message_display_time
            = s.message_display_time)
      ∧ ((on_message_result dist s topic payload now).2 = false →
        (on_message_result dist s topic payload now).1.message_display_time = some now) := by
  unfold on_message_result
  rcases payload with _ | data
  · simp
  · rcases data with _ | b | q | st | xs | m <;> dsimp only
    case obj =>
      by_cases hw : topic = TOPIC_WEATHER
      · rw [if_pos hw]
        rcases hj : jge500 (jgetD m "slide_value" (JVal.num 0)) with _ | b2
        · simp [hj]
        · simp [hj]
      · rw [if_neg hw]
        by_cases ha : topic = TOPIC_ALERT
        · rw [if_pos ha]
          rcases hc : jCoord (jgetD m "collision_location" JVal.null) with _ | ⟨clat, clon⟩
          · simp [hc]
          · simp [hc]
        · rw [if_neg ha]
          simp
    all_goals
      by_cases hw : topic = TOPIC_WEATHER
    all_goals
      first
        | (rw [if_pos hw]; simp)
        | (rw [if_neg hw]
           by_cases ha : topic = TOPIC_ALERT
           · rw [if_pos ha]; simp
           · rw [if_neg ha]; simp)

/-- Witness for C9 at a concrete raising input: the empty-object collision
payload raises inside the body, and the two display fields are untouched. -/
theorem C9_exception_safety_witness :
    (on_message_result dist0 initState TOPIC_ALERT (some (JVal.obj [])) 7).1.message_to_display
        = initState.message_to_display
      ∧ (on_message_result dist0 initState TOPIC_ALERT (some (JVal.obj [])) 7).1.message_display_time
        = initState.message_display_time :=
  (C9_exception_safety dist0 initState TOPIC_ALERT (some (JVal.obj [])) 7).1 rfl

/-- Claim C5, as frozen, is false at a concrete input: an update reporting
latitude 5 (a valid value) and longitude 0 should, per the claim, overwrite
the latitude axis independently of the other axis; the code skips the whole
update and latitude stays 50. -/
theorem C5_counterexample :
    (kuksa_step initState (some (some 5)) (some (some 0))).1.this_location.latitude = 50
      ∧ (50 : ℚ) ≠ 5 := by
  exact ⟨rfl, by norm_num⟩

/-- Claim C5 (amended): a telemetry update rewrites both axes of the shared
`Position` together, and only when both reported values are present and
nonzero; if either value is absent (`None`) or zero, the whole update is
skipped and the prior `Position` (indeed the whole state) is retained — no
axis is ever written independently.  A signal path missing from the update
raises (terminating the monitoring loop), also retaining the state. -/
theorem C5_kuksa_update (s : AppState) (latv lonv : Option ℚ) :
    (kuksa_step s (some latv) (some lonv)).2 = false
      ∧ (∀ la lo : ℚ, latv = some la → lonv = some lo → la ≠ 0 → lo ≠ 0 →
          (kuksa_step s (some latv) (some lonv)).1
            = { s with this_location := ⟨la, lo⟩ })
      ∧ ((latv = none ∨ lonv = none ∨ latv = some 0 ∨ lonv = some 0) →
          (kuksa_step s (some latv) (some lonv)).1 = s)
      ∧ (kuksa_step s none (some lonv)).2 = true
      ∧ (kuksa_step s none (some lonv)).1 = s
      ∧ (kuksa_step s (some latv) none).2 = true
      ∧ (kuksa_step s (some latv) none).1 = s := by
  unfold kuksa_step
  rcases latv with _ | la <;> rcases lonv with _ | lo <;> dsimp only
  · simp
  · simp
  · simp
  · refine ⟨?_, ?_, ?_, rfl, rfl, rfl, rfl⟩
    · by_cases h : la ≠ 0 ∧ lo ≠ 0
      · rw [if_pos h]
      · rw [if_neg h]
    · intro la' lo' hla hlo hla0 hlo0
      obtain rfl : la = la' := by injection hla
      obtain rfl : lo = lo' := by injection hlo
      rw [if_pos ⟨hla0, hlo0⟩]
    · rintro (h | h | h | h)
      · exact absurd h (by simp)
      · exact absurd h (by simp)
      · obtain rfl : la = 0 := by injection h
        rw [if_neg (by simp)]
      · obtain rfl : lo = 0 := by injection h
        rw [if_neg (by simp)]

/-- Witness for C5 at concrete inputs: both values nonzero rewrites both
axes; a zero longitude skips the update. -/
theorem C5_kuksa_update_witness :
    (kuksa_step initState (some (some 5)) (some (some 6))).1
        = { initState with this_location := ⟨5, 6⟩ }
      ∧ (kuksa_step initState (some (some 5)) (some (some 0))).1 = initState :=
  ⟨(C5_kuksa_update initState (some 5) (some 6)).2.1 5 6 rfl rfl
      (by norm_num) (by norm_num),
    (C5_kuksa_update initState (some 5) (some 0)).2.2.1 (Or.inr (Or.inr (Or.inr rfl)))⟩

/-- Claim C10: a telemetry update in which either reported value is 0 (or
`None`) leaves the shared `Position` entirely unchanged, and the two axes are
only ever written together, when both values are truthy. -/
theorem C10_position_both_axes (s : AppState) (latv lonv : Option ℚ) :
    ((latv = some 0 ∨ lonv = some 0 ∨ latv = none ∨ lonv = none) →
        (kuksa_step s (some latv) (some lonv)).1 = s)
      ∧ ((kuksa_step s (some latv) (some lonv)).1.this_location ≠ s.this_location →
        ∃ la lo : ℚ, latv = some la ∧ lonv = some lo ∧ la ≠ 0 ∧ lo ≠ 0 ∧
          (kuksa_step s (some latv) (some lonv)).1.this_location = ⟨la, lo⟩) := by
  unfold kuksa_step
  rcases latv with _ | la <;> rcases lonv with _ | lo <;> dsimp only
  · simp
  · simp
  · simp
  · constructor
    · rintro (h | h | h | h)
      · obtain rfl : la = 0 := by injection h
        rw [if_neg (by simp)]
      · obtain rfl : lo = 0 := by injection h
        rw [if_neg (by simp)]
      · exact absurd h (by simp)
      · exact absurd h (by simp)
    · intro hchg
      by_cases h : la ≠ 0 ∧ lo ≠ 0
      · refine ⟨la, lo, rfl, rfl, h.1, h.2, ?_⟩
        rw [if_pos h]
      · rw [if_neg h] at hchg
        exact absurd rfl hchg

/-- Witness for C10 at concrete inputs: zero latitude leaves the position
unchanged. -/
theorem C10_position_both_axes_witness :
    (kuksa_step initState (some (some 0)) (some (some 6))).1 = initState :=
  (C10_position_both_axes initState (some 0) (some 6)).1 (Or.inl rfl)

/-- Claim C8: the slide counter `slide_cnt` is monotonically non-decreasing
under every operation of the program — message handling, render ticks, and
telemetry steps — and it grows (by exactly one) only when a weather message's
extracted `slide_value` passes the threshold `>= 500`. -/
theorem C8_slide_cnt_monotone (dist : ℚ → ℚ → ℚ → ℚ → ℚ) (s : AppState)
    (topic : String) (payload : Option JVal) (now now2 : ℚ)
    (lat lon : Option (Option ℚ)) :
    s.slide_cnt ≤ (on_message_result dist s topic payload now).1.slide_cnt
      ∧ ((on_message_result dist s topic payload now).1.slide_cnt ≠ s.slide_cnt →
        topic = TOPIC_WEATHER
          ∧ (on_message_result dist s topic payload now).1.slide_cnt = s.slide_cnt + 1
          ∧ ∃ m, payload = some (JVal.obj m)
              ∧ jge500 (jgetD m "slide_value" (JVal.num 0)) = some true)
      ∧ (render_tick s now2).1.slide_cnt = s.slide_cnt
      ∧ (kuksa_step s lat lon).1.slide_cnt = s.slide_cnt := by
  refine ⟨?_, ?_, (render_tick_fields s now2).1, (kuksa_step_fields s lat lon).1⟩
  · rcases on_message_slide_cnt dist s topic payload now with h | ⟨_, h, _⟩
    · exact h.ge
    · rw [h]
      exact Nat.le_succ _
  · intro hne
    rcases on_message_slide_cnt dist s topic payload now with h | h
    · exact absurd h hne
    · exact h

/-- Witness for C8 at a concrete input: a weather message with
`slide_value = 500` bumps the counter by one, discharging the inner
implication concretely. -/
theorem C8_slide_cnt_monotone_witness :
    initState.slide_cnt
        ≤ (on_message_result dist0 initState TOPIC_WEATHER
            (some (JVal.obj [("slide_value", JVal.num 500)])) 1).1.slide_cnt
      ∧ (on_message_result dist0 initState TOPIC_WEATHER
            (some (JVal.obj [("slide_value", JVal.num 500)])) 1).1.slide_cnt
          = initState.slide_cnt + 1 :=
  ⟨(C8_slide_cnt_monotone dist0 initState TOPIC_WEATHER
      (some (JVal.obj [("slide_value", JVal.num 500)])) 1 0 none none).1,
    ((C8_slide_cnt_monotone dist0 initState TOPIC_WEATHER
        (some (JVal.obj [("slide_value", JVal.num 500)])) 1 0 none none).2.1
      (by decide)).2.1⟩

/-- Claim C4: for a weather message whose extracted `slide_value` is a number
`q` (the extraction defaults to 0 when the field is absent, likewise
`humidity`), the counter is bumped exactly when `q >= 500`, and a weather
display is produced with the timestamp set. -/
theorem C4_weather_threshold (dist : ℚ → ℚ → ℚ → ℚ → ℚ) (s : AppState)
    (m : List (String × JVal)) (now : ℚ) (q : ℚ)
    (hq : jgetD m "slide_value" (JVal.num 0) = JVal.num q) :
    (on_message_result dist s TOPIC_WEATHER (some (JVal.obj m)) now).1.slide_cnt
        = (if 500 ≤ q then s.slide_cnt + 1 else s.slide_cnt)
      ∧ (on_message_result dist s TOPIC_WEATHER (some (JVal.obj m)) now).1.slide_value
        = JVal.num q
      ∧ (on_message_result dist s TOPIC_WEATHER (some (JVal.obj m)) now).1.humidity
        = jgetD m "humidity" (JVal.num 0)
      ∧ (jget m "slide_value" = none → q = 0)
      ∧ (jget m "humidity" = none →
          (on_message_result dist s TOPIC_WEATHER (some (JVal.obj m)) now).1.humidity
            = JVal.num 0)
      ∧ (on_message_result dist s TOPIC_WEATHER (some (JVal.obj m)) now).1.message_to_display
        = some ("Slide Count: "
            ++ toString (if 500 ≤ q then s.slide_cnt + 1 else s.slide_cnt))
      ∧ (on_message_result dist s TOPIC_WEATHER (some (JVal.obj m)) now).1.message_display_time
        = some now
      ∧ (on_message_result dist s TOPIC_WEATHER (some (JVal.obj m)) now).2 = false := by
  have hb : jge500 (jgetD m "slide_value" (JVal.num 0)) = some (decide (500 ≤ q)) := by
    rw [hq]
    rfl
  have heq := on_message_weather_eq dist s m now (decide (500 ≤ q)) hb
  have hdef : jget m "slide_value" = none → q = 0 := by
    intro hn
    unfold jgetD at hq
    rw [hn] at hq
    injection hq with h
    exact h.symm
  have hdefh : jget m "humidity" = none →
      (on_message_result dist s TOPIC_WEATHER (some (JVal.obj m)) now).1.humidity
        = JVal.num 0 := by
    intro hn
    rw [heq]
    unfold jgetD
    rw [hn]
    rfl
  rw [heq]
  by_cases h500 : (500 : ℚ) ≤ q
  · simp [h500, hq]
    exact ⟨hdef, fun hn => by simpa [heq] using hdefh hn⟩
  · simp [h500, hq]
    exact ⟨hdef, fun hn => by simpa [heq] using hdefh hn⟩

/-- Witness for C4 at concrete inputs: `slide_value = 500` bumps the counter
to 1; `slide_value = 499` leaves it at 0; both produce the weather display. -/
theorem C4_weather_threshold_witness :
    (on_message_result dist0 initState TOPIC_WEATHER
        (some (JVal.obj [("slide_value", JVal.num 500)])) 1).1.slide_cnt = 1
      ∧ (on_message_result dist0 initState TOPIC_WEATHER
          (some (JVal.obj [("slide_value", JVal.num 499)])) 1).1.slide_cnt = 0 := by
  constructor
  · have h := (C4_weather_threshold dist0 initState
      [("slide_value", JVal.num 500)] 1 500 rfl).1
    rw [if_pos (by norm_num)] at h
    exact h
  · have h := (C4_weather_threshold dist0 initState
      [("slide_value", JVal.num 499)] 1 499 rfl).1
    rw [if_neg (by norm_num)] at h
    exact h

/-- Claim C2, as frozen, is false at a concrete input: with a weather message
set at time 0 and TTL 5, the first render tick at time 6 (`now > T + 5`)
still draws the expired message, not the idle background — the expiry check
runs only after the message is displayed. -/
theorem C2_counterexample :
    (render_tick sExp 6).2.1 = some (Shown.overlay true "Slide Count: 0")
      ∧ Shown.overlay true "Slide Count: 0" ≠ Shown.background := by
  with_unfolding_all decide

/-- Claim C2 (amended): after the display is set at time `T` with TTL 5,
every render tick with `now - T <= 5` draws the display kind and leaves the
state unchanged; the first tick with `now - T > 5` still draws the expired
message but clears it, so the idle background is observed from the second
post-expiry tick onward. -/
theorem C2_display_ttl (s : AppState) (t : String) (T now now2 : ℚ) (sh : Shown)
    (h1 : s.message_to_display = some t) (h2 : t.isEmpty = false)
    (h3 : s.message_display_time = some T) (h4 : display_message s t = some sh) :
    (now - T ≤ 5 → render_tick s now = (s, some sh, false))
      ∧ (now - T > 5 →
        (render_tick s now).2.1 = some sh
          ∧ (render_tick s now).1.message_to_display = none
          ∧ (render_tick (render_tick s now).1 now2).2.1 = some Shown.background) := by
  have htr : msgTruthy s.message_to_display = true := by
    rw [h1]
    simp [msgTruthy, h2]
  unfold render_tick
  rw [htr, if_pos rfl, h1]
  dsimp only
  rw [h4, h3]
  dsimp only
  constructor
  · intro hle
    rw [if_neg (not_lt.mpr hle)]
  · intro hgt
    rw [if_pos hgt]
    refine ⟨rfl, rfl, ?_⟩
    simp [render_tick, msgTruthy]

/-- Witness for C2 at concrete inputs: the weather display set at time 0,
ticked at time 6 and then at time 7. -/
theorem C2_display_ttl_witness :
    (render_tick sExp 6).2.1 = some (Shown.overlay true "Slide Count: 0")
      ∧ (render_tick sExp 6).1.message_to_display = none
      ∧ (render_tick (render_tick sExp 6).1 7).2.1 = some Shown.background :=
  (C2_display_ttl sExp "Slide Count: 0" 0 6 7
      (Shown.overlay true "Slide Count: 0") rfl rfl rfl rfl).2 (by norm_num)

/-- Claim C6, as frozen, is false at a concrete input: with the collision
display active, two consecutive render ticks draw exactly the same text — no
synthetic step changes the shown distance value between ticks (the per-tick
coordinate-stepping statements in `run` are commented out). -/
theorem C6_counterexample :
    (render_tick sCol 1).2.1 = some (Shown.overlay false "Collision Distance: 0 KM")
      ∧ (render_tick (render_tick sCol 1).1 2).2.1
        = some (Shown.overlay false "Collision Distance: 0 KM")
      ∧ (render_tick sCol 1).1.message_to_display = sCol.message_to_display := by
  with_unfolding_all decide

/-- Claim C6 (amended): while a display is active and unexpired, each render
tick draws exactly the text computed at the transition that set it — the
drawn overlay carries the stored text verbatim, and the tick mutates no field
of the state; the displayed text changes only when a new message arrives or
when expiry clears it. -/
theorem C6_text_fixed (s : AppState) (t : String) (T now : ℚ) (sh : Shown)
    (h1 : s.message_to_display = some t) (h2 : t.isEmpty = false)
    (h3 : s.message_display_time = some T) (h4 : display_message s t = some sh)
    (h5 : now - T ≤ 5) :
    render_tick s now = (s, some sh, false)
      ∧ (∃ w : Bool, sh = Shown.overlay w t)
      ∧ (render_tick s now).1.message_to_display = some t := by
  have htr : msgTruthy s.message_to_display = true := by
    rw [h1]
    simp [msgTruthy, h2]
  have hsh : ∃ w : Bool, sh = Shown.overlay w t := by
    unfold display_message at h4
    split at h4
    · exact ⟨true, (Option.some.inj h4).symm⟩
    · repeat' split at h4
      all_goals
        first
          | exact ⟨false, (Option.some.inj h4).symm⟩
          | simp at h4
  have heq : render_tick s now = (s, some sh, false) := by
    unfold render_tick
    rw [htr, if_pos rfl, h1]
    dsimp only
    rw [h4, h3]
    dsimp only
    rw [if_neg (not_lt.mpr h5)]
  refine ⟨heq, hsh, ?_⟩
  rw [heq, h1]

/-- Witness for C6 at a concrete input: the weather display set at time 0,
ticked at time 3. -/
theorem C6_text_fixed_witness :
    render_tick sExp 3 = (sExp, some (Shown.overlay true "Slide Count: 0"), false)
      ∧ (render_tick sExp 3).1.message_to_display = some "Slide Count: 0" :=
  ⟨(C6_text_fixed sExp "Slide Count: 0" 0 3 (Shown.overlay true "Slide Count: 0")
      rfl rfl rfl rfl (by norm_num)).1,
    (C6_text_fixed sExp "Slide Count: 0" 0 3 (Shown.overlay true "Slide Count: 0")
      rfl rfl rfl rfl (by norm_num)).2.2⟩

/-- Claim C3: for a Weather event followed by a Collision event, both
successfully processed, the collision display fully replaces the weather
display and resets the expiry timestamp (last-write-wins; nothing is merged
or queued). -/
theorem C3_last_write_wins (dist : ℚ → ℚ → ℚ → ℚ → ℚ) (s : AppState)
    (t1 t2 : ℚ) (wm cm : List (String × JVal)) (b : Bool) (clat clon : ℚ)
    (hw : jge500 (jgetD wm "slide_value" (JVal.num 0)) = some b)
    (hc : jCoord (jgetD cm "collision_location" JVal.null) = some (clat, clon)) :
    (on_message_result dist s TOPIC_WEATHER (some (JVal.obj wm)) t1).2 = false
      ∧ (on_message dist s TOPIC_WEATHER (some (JVal.obj wm)) t1).message_to_display
        = some ("Slide Count: "
            ++ toString (if b then s.slide_cnt + 1 else s.slide_cnt))
      ∧ (on_message_result dist (on_message dist s TOPIC_WEATHER (some (JVal.obj wm)) t1)
          TOPIC_ALERT (some (JVal.obj cm)) t2).2 = false
      ∧ (on_message dist (on_message dist s TOPIC_WEATHER (some (JVal.obj wm)) t1)
          TOPIC_ALERT (some (JVal.obj cm)) t2).message_to_display
        = some ("Collision Distance: "
            ++ toString (pyRound1
                (dist clat clon s.this_location.latitude s.this_location.longitude))
            ++ " KM")
      ∧ (on_message dist (on_message dist s TOPIC_WEATHER (some (JVal.obj wm)) t1)
          TOPIC_ALERT (some (JVal.obj cm)) t2).message_display_time = some t2 := by
  unfold on_message
  rw [on_message_weather_eq dist s wm t1 b hw]
  dsimp only
  rw [on_message_collision_eq dist _ cm t2 clat clon hc]
  exact ⟨rfl, rfl, rfl, rfl, rfl⟩

/-- Witness for C3 at concrete inputs: a weather message with
`slide_value = 500` at time 1, then a collision message with a valid location
at time 2. -/
theorem C3_last_write_wins_witness :
    (on_message dist0 (on_message dist0 initState TOPIC_WEATHER
        (some (JVal.obj [("slide_value", JVal.num 500)])) 1)
        TOPIC_ALERT (some collisionPayload) 2).message_to_display
      = some ("Collision Distance: "
          ++ toString (pyRound1
              (dist0 51 10 initState.this_location.latitude
                initState.this_location.longitude))
          ++ " KM")
    ∧ (on_message dist0 (on_message dist0 initState TOPIC_WEATHER
        (some (JVal.obj [("slide_value", JVal.num 500)])) 1)
        TOPIC_ALERT (some collisionPayload) 2).message_display_time = some 2 :=
  ⟨(C3_last_write_wins dist0 initState 1 2 [("slide_value", JVal.num 500)]
      [("collision_location",
        JVal.obj [("latitude", JVal.num 51), ("longitude", JVal.num 10)])]
      true 51 10 (by with_unfolding_all decide) rfl).2.2.2.1,
    (C3_last_write_wins dist0 initState 1 2 [("slide_value", JVal.num 500)]
      [("collision_location",
        JVal.obj [("latitude", JVal.num 51), ("longitude", JVal.num 10)])]
      true 51 10 (by with_unfolding_all decide) rfl).2.2.2.2⟩

/-- Claim C7: the GeoMath distance (modelled from the spec as the haversine
great-circle distance on a spherical Earth) is symmetric, and the
self-distance of every coordinate pair is zero. -/
theorem C7_distance_symm_self (lat1 lon1 lat2 lon2 : ℝ) :
    haversineKm lat1 lon1 lat2 lon2 = haversineKm lat2 lon2 lat1 lon1
      ∧ haversineKm lat1 lon1 lat1 lon1 = 0 := by
  have key : ∀ x y : ℝ, Real.sin ((x - y) / 2) ^ 2 = Real.sin ((y - x) / 2) ^ 2 := by
    intro x y
    rw [show (x - y) / 2 = -((y - x) / 2) by ring, Real.sin_neg, neg_sq]
  constructor
  · unfold haversineKm
    dsimp only
    rw [key (lat2 * Real.pi / 180) (lat1 * Real.pi / 180),
      key (lon2 * Real.pi / 180) (lon1 * Real.pi / 180),
      mul_comm (Real.cos (lat1 * Real.pi / 180)) (Real.cos (lat2 * Real.pi / 180))]
  · unfold haversineKm
    dsimp only
    rw [sub_self, sub_self]
    norm_num [Real.arcsin_zero]

end VehicleHUD
